import Mathlib

/-!
Shallow embedding of the PPTX template-analysis / presentation-generation
service (`src/server/services/pptxService.ts`) of the auto-ppt-generator
repository, together with proofs of the specification claims.

Conventions of the embedding:
* JavaScript strings are Lean `String`s; `toUpperCase`/`toLowerCase` on the
  ASCII data handled here are embedded as character-wise maps.
* The xml2js parse result is modelled by `Xml`: an element carries its
  attribute object (`$` in xml2js, absent when the list is empty) and its
  child arrays keyed by tag name, in insertion (document) order.
* Fallible external effects (zip loading, XML parsing, disk writes) are
  passed in as explicit oracles, so every function stays executable.
-/

namespace AutoPPT

/-- Character-wise upper-casing, the embedding of JS `String.toUpperCase` on
the ASCII data manipulated by the service. -/
def upperStr (s : String) : String :=
  ⟨s.data.map Char.toUpper⟩

/-- Character-wise lower-casing, the embedding of JS `String.toLowerCase`. -/
def lowerStr (s : String) : String :=
  ⟨s.data.map Char.toLower⟩

/-- The 22 characters matched by the source regex class `[0-9A-Fa-f]`. -/
def hexDigitChars : List Char := "0123456789abcdefABCDEF".data

/-- Embedding of the source test `/^[0-9A-Fa-f]{6}$/.test s`. -/
def isHex6 (s : String) : Bool :=
  s.data.length == 6 && s.data.all (fun c => hexDigitChars.contains c)

/-- The 16 characters matched by `[0-9A-F]`. -/
def upperHexChars : List Char := "0123456789ABCDEF".data

/-- The spec's color-slot pattern `^#[0-9A-F]{6}$`. -/
def hexPattern (s : String) : Bool :=
  match s.data with
  | '#' :: rest => rest.length == 6 && rest.all (fun c => upperHexChars.contains c)
  | _ => false

/-- Whether the first list is a leading run of the second. -/
def leadMatch : List Char → List Char → Bool
  | [], _ => true
  | _ :: _, [] => false
  | p :: ps, c :: cs => c == p && leadMatch ps cs

/-- Whether `sub` occurs as a contiguous run of `l`. -/
def runContains (sub : List Char) : List Char → Bool
  | [] => sub.isEmpty
  | c :: cs => leadMatch sub (c :: cs) || runContains sub cs

/-- Embedding of JS `s.includes sub`. -/
def containsSub (sub s : String) : Bool :=
  runContains sub.data s.data

/-- Embedding of JS `s.startsWith pre`. -/
def strStarts (pre s : String) : Bool :=
  leadMatch pre.data s.data

/-- Embedding of JS `s.endsWith suf`. -/
def strEnds (suf s : String) : Bool :=
  leadMatch suf.data.reverse s.data.reverse

/-- Remove the first occurrence of `'#'` from a character list. -/
def removeFirstHash : List Char → List Char
  | [] => []
  | c :: cs => if c = '#' then cs else c :: removeFirstHash cs

/-- Embedding of JS `s.replace('#', '')`: string replace with a string
pattern replaces only the first occurrence. -/
def replaceFirstHash (s : String) : String :=
  ⟨removeFirstHash s.data⟩

/-- The spec-side reading of "with any leading `#` stripped": drop a `#`
only when it is the first character. -/
def stripLeadingHash (s : String) : String :=
  if s.data.head? = some '#' then ⟨s.data.tail⟩ else s

/-- A hex-color string as the service produces them: if it contains `#` at
all, the first occurrence is the leading character. -/
def goodHexStr (s : String) : Prop :=
  s.data.head? = some '#' ∨ '#' ∉ s.data

/-- An xml2js element: its attribute object (the `$` key, a string-to-string
map, absent when empty) and its child element arrays keyed by tag name in
document order. Text-only / empty elements are represented with both lists
empty (xml2js renders them as plain strings, which carry neither a usable
`$` nor child arrays). -/
inductive Xml : Type where
  | mk : List (String × String) → List (String × List Xml) → Xml

/-- Attribute list of an element. -/
def Xml.attrs : Xml → List (String × String)
  | .mk a _ => a

/-- Child arrays of an element. -/
def Xml.children : Xml → List (String × List Xml)
  | .mk _ c => c

/-- Lookup of one child array by tag key (JS `element[k]`). -/
def Xml.child (x : Xml) (k : String) : Option (List Xml) :=
  (x.children.find? (fun p => p.1 == k)).map (fun p => p.2)

/-- Embedding of the pervasive source idiom `element[k1] || element[k2]`
(first the namespaced key, then the bare one). -/
def Xml.child2 (x : Xml) (k1 k2 : String) : Option (List Xml) :=
  match x.child k1 with
  | some a => some a
  | none => x.child k2

/-- Attribute lookup (JS `element.$[k]`). -/
def Xml.attr (x : Xml) (k : String) : Option String :=
  (x.attrs.find? (fun p => p.1 == k)).map (fun p => p.2)

/-- Result of the JS access `(nodes[0]?.$ || nodes[0])[k]`: a string
attribute value, a (truthy, non-string) child array, or `undefined`. -/
inductive JsProp : Type where
  | str : String → JsProp
  | arr : JsProp
  | missing : JsProp

/-- Embedding of `(nodes[0]?.$ || nodes[0])[k]`: when the first node has an
attribute object its `k` entry is read; otherwise the fallback is the node
itself, whose `k` property is a child array (never a string) or absent. -/
def propVal (nodes : List Xml) (k : String) : JsProp :=
  match nodes with
  | [] => .missing
  | n :: _ =>
    if n.attrs.isEmpty then
      match n.child k with
      | some _ => .arr
      | none => .missing
    else
      match n.attr k with
      | some v => .str v
      | none => .missing

/-- Branch (d) of `extractColorValue`: scan the element's keys for one
containing `Clr` whose first node has an attribute `val` matching the
6-hex-digit pattern. -/
def tryBranchD (element : Xml) : Option String :=
  element.children.findSome? (fun p =>
    if containsSub "Clr" p.1 then
      match p.2 with
      | [] => none
      | n :: _ =>
        if n.attrs.isEmpty then none
        else
          match n.attr "val" with
          | some v => if v != "" && isHex6 v then some ("#" ++ upperStr v) else none
          | none => none
    else none)

/-- Branch (c) of `extractColorValue`: a direct `val` attribute on the
element itself (`element.$ && element.$.val`), else branch (d). -/
def tryBranchC (element : Xml) : Option String :=
  if element.attrs.isEmpty then tryBranchD element
  else
    match element.attr "val" with
    | some v => if v = "" then tryBranchD element else some ("#" ++ upperStr v)
    | none => tryBranchD element

/-- Branch (b) of `extractColorValue`: a system color's `lastClr`; a truthy
non-string property makes the source's `toUpperCase` throw, which its
`catch` turns into `null`. -/
def tryBranchB (element : Xml) : Option String :=
  match element.child2 "a:sysClr" "sysClr" with
  | some sys =>
    match propVal sys "lastClr" with
    | .str v => if v = "" then tryBranchC element else some ("#" ++ upperStr v)
    | .arr => none
    | .missing => tryBranchC element
  | none => tryBranchC element

/-- Embedding of `extractColorValue`: branch (a) is the `srgbClr` RGB value;
falls through (b), (c), (d); any `toUpperCase` on a non-string throws and is
caught, yielding `null`. -/
def extractColorValue (colorElement : Option (List Xml)) : Option String :=
  match colorElement with
  | none => none
  | some [] => none
  | some (element :: _) =>
    match element.child2 "a:srgbClr" "srgbClr" with
    | some srgb =>
      match propVal srgb "val" with
      | .str v => if v = "" then tryBranchB element else some ("#" ++ upperStr v)
      | .arr => none
      | .missing => tryBranchB element
    | none => tryBranchB element

/-- Embedding of `extractFontName`: read the `typeface` attribute of the
first `latin` child. A (non-string) child named `typeface` never occurs in
xml2js output for OOXML font schemes and is mapped to `none`. -/
def extractFontName (fontElement : Option (List Xml)) : Option String :=
  match fontElement with
  | none => none
  | some [] => none
  | some (element :: _) =>
    match element.child2 "a:latin" "latin" with
    | some latin =>
      match propVal latin "typeface" with
      | .str v => if v = "" then none else some v
      | .arr => none
      | .missing => none
    | none => none

/-- The 12-slot color scheme of `ThemeData`. -/
structure ColorScheme where
  background1 : String
  text1 : String
  background2 : String
  text2 : String
  accent1 : String
  accent2 : String
  accent3 : String
  accent4 : String
  accent5 : String
  accent6 : String
  hyperlink : String
  followedHyperlink : String
deriving DecidableEq, Repr

/-- The slots of a color scheme in `Object.values` (declaration) order. -/
def ColorScheme.slots (c : ColorScheme) : List String :=
  [c.background1, c.text1, c.background2, c.text2, c.accent1, c.accent2,
   c.accent3, c.accent4, c.accent5, c.accent6, c.hyperlink, c.followedHyperlink]

/-- The font scheme of `ThemeData`. -/
structure FontScheme where
  majorFont : String
  minorFont : String
deriving DecidableEq, Repr

/-- `ThemeData`; the effect scheme is an unused placeholder (`{}`). -/
structure ThemeData where
  colorScheme : ColorScheme
  fontScheme : FontScheme
  effectScheme : Unit
deriving DecidableEq, Repr

/-- Embedding of `getDefaultThemeData`. -/
def getDefaultThemeData : ThemeData :=
  { colorScheme :=
      { background1 := "#FFFFFF", text1 := "#000000", background2 := "#E7E6E6", text2 := "#44546A"
        accent1 := "#5B9BD5", accent2 := "#70AD47", accent3 := "#A5A5A5", accent4 := "#FFC000"
        accent5 := "#4472C4", accent6 := "#C5504B", hyperlink := "#0066CC", followedHyperlink := "#954F72" }
    fontScheme := { majorFont := "Calibri", minorFont := "Calibri" }
    effectScheme := () }

/-- The xml2js root result: an object with a single key, the document's root
tag, holding the root element. -/
structure XmlRoot where
  tag : String
  node : Xml

/-- Embedding of `parseColorScheme`. A missing `a:theme`/`theme` root key
makes the source throw on the next property access; its `catch` returns the
defaults, as do a missing `themeElements` or `clrScheme`. -/
def parseColorScheme (root : XmlRoot) : ColorScheme :=
  if root.tag == "a:theme" || root.tag == "theme" then
    match root.node.child2 "a:themeElements" "themeElements" with
    | none => getDefaultThemeData.colorScheme
    | some [] => getDefaultThemeData.colorScheme
    | some (te :: _) =>
      match te.child2 "a:clrScheme" "clrScheme" with
      | none => getDefaultThemeData.colorScheme
      | some [] => getDefaultThemeData.colorScheme
      | some (scheme :: _) =>
        { background1 := (extractColorValue (scheme.child2 "a:lt1" "lt1")).getD "#FFFFFF"
          text1 := (extractColorValue (scheme.child2 "a:dk1" "dk1")).getD "#000000"
          background2 := (extractColorValue (scheme.child2 "a:lt2" "lt2")).getD "#E7E6E6"
          text2 := (extractColorValue (scheme.child2 "a:dk2" "dk2")).getD "#44546A"
          accent1 := (extractColorValue (scheme.child2 "a:accent1" "accent1")).getD "#5B9BD5"
          accent2 := (extractColorValue (scheme.child2 "a:accent2" "accent2")).getD "#70AD47"
          accent3 := (extractColorValue (scheme.child2 "a:accent3" "accent3")).getD "#A5A5A5"
          accent4 := (extractColorValue (scheme.child2 "a:accent4" "accent4")).getD "#FFC000"
          accent5 := (extractColorValue (scheme.child2 "a:accent5" "accent5")).getD "#4472C4"
          accent6 := (extractColorValue (scheme.child2 "a:accent6" "accent6")).getD "#C5504B"
          hyperlink := (extractColorValue (scheme.child2 "a:hlink" "hlink")).getD "#0066CC"
          followedHyperlink := (extractColorValue (scheme.child2 "a:folHlink" "folHlink")).getD "#954F72" }
  else getDefaultThemeData.colorScheme

/-- Embedding of `parseFontScheme`. -/
def parseFontScheme (root : XmlRoot) : FontScheme :=
  if root.tag == "a:theme" || root.tag == "theme" then
    match root.node.child2 "a:themeElements" "themeElements" with
    | none => { majorFont := "Calibri", minorFont := "Calibri" }
    | some [] => { majorFont := "Calibri", minorFont := "Calibri" }
    | some (te :: _) =>
      match te.child2 "a:fontScheme" "fontScheme" with
      | none => { majorFont := "Calibri", minorFont := "Calibri" }
      | some [] => { majorFont := "Calibri", minorFont := "Calibri" }
      | some (scheme :: _) =>
        { majorFont := (extractFontName (scheme.child2 "a:majorFont" "majorFont")).getD "Calibri"
          minorFont := (extractFontName (scheme.child2 "a:minorFont" "minorFont")).getD "Calibri" }
  else { majorFont := "Calibri", minorFont := "Calibri" }

/-- One entry of the opened zip container (`zip.files[name]`): its full
path, whether it is a directory entry, and its raw bytes. -/
structure ZipEntry where
  name : String
  dir : Bool
  content : List Nat
deriving DecidableEq, Repr

/-- An opened zip container; `files` is the archive's internal listing in
its iteration (insertion) order. -/
structure Zip where
  files : List ZipEntry
deriving DecidableEq, Repr

/-- Embedding of JSZip `zip.file name`: exact-name lookup; directory
entries yield `null`. -/
def Zip.file (z : Zip) (nm : String) : Option ZipEntry :=
  match z.files.find? (fun e => e.name == nm) with
  | some e => if e.dir then none else some e
  | none => none

/-- Embedding of `extractThemeData`. The string conversion plus
`xml2js.parseStringPromise` of the theme part is the `parse` oracle; a
rejected parse is caught and defaulted, as is a missing part. -/
def extractThemeData (parse : List Nat → Option XmlRoot) (z : Zip) : ThemeData :=
  match z.file "ppt/theme/theme1.xml" with
  | none => getDefaultThemeData
  | some f =>
    match parse f.content with
    | none => getDefaultThemeData
    | some root =>
      { colorScheme := parseColorScheme root
        fontScheme := parseFontScheme root
        effectScheme := () }

/-- Embedding of node `path.basename` for the slash-separated media paths
handled here (no trailing slash occurs: the extension filter excludes it). -/
def basename (s : String) : String :=
  ⟨(s.data.reverse.takeWhile (fun c => c != '/')).reverse⟩

/-- Embedding of `path.extname(fileName).substring(1).toLowerCase()`:
the part after the last dot, empty when there is no dot or the only dot is
the leading character. -/
def extOf (fileName : String) : String :=
  let cs := fileName.data
  let tail := (cs.reverse.takeWhile (fun c => c != '.')).reverse
  if tail.length = cs.length then ""
  else if cs.length = tail.length + 1 then ""
  else lowerStr ⟨tail⟩

/-- Embedding of the media filter: `fileName.startsWith('ppt/media/') &&
/\.(png|jpg|jpeg|gif|emf|wmf)$/i.test(fileName)`. -/
def isAllowedMedia (nm : String) : Bool :=
  strStarts "ppt/media/" nm &&
  (let l := lowerStr nm
   strEnds ".png" l || strEnds ".jpg" l || strEnds ".jpeg" l ||
   strEnds ".gif" l || strEnds ".emf" l || strEnds ".wmf" l)

/-- The filtered `Object.keys(zip.files)` media list of `extractImages`. -/
def mediaFileNames (z : Zip) : List String :=
  (z.files.map (fun e => e.name)).filter isAllowedMedia

/-- An `ExtractedImage` record. -/
structure ExtractedImage where
  id : String
  originalName : String
  filePath : String
  fileType : String
  slideContext : Option String
  description : Option String
deriving DecidableEq, Repr

/-- The target path of one extracted image:
`path.join(imagesDir, id ++ "_" ++ fileName)`. -/
def imagePath (imagesDir id fileName : String) : String :=
  imagesDir ++ "/" ++ id ++ "_" ++ fileName

/-- The loop body of `extractImages` over the media names. `uuid i` is the
value of the i-th `randomUUID()` call; `writeOk` tells whether
`fs.writeFileSync` to a path succeeds. A failed write throws: the result is
`none` and the source's `catch` takes over (files already written before
the failure stay on disk but are observed by no caller). -/
def extractGo (z : Zip) (templatePath imagesDir : String) (uuid : Nat → String)
    (writeOk : String → Bool) :
    List String → Nat → Option (List ExtractedImage × List (String × List Nat))
  | [], _ => some ([], [])
  | nm :: rest, i =>
    match z.file nm with
    | none => extractGo z templatePath imagesDir uuid writeOk rest i
    | some e =>
      let fileName := basename nm
      let extractedPath := imagePath imagesDir (uuid i) fileName
      if writeOk extractedPath then
        match extractGo z templatePath imagesDir uuid writeOk rest (i + 1) with
        | some (imgs, ws) =>
          some ({ id := uuid i, originalName := fileName, filePath := extractedPath
                  fileType := extOf fileName, slideContext := some "template"
                  description := some ("Extracted from " ++ basename templatePath) } :: imgs,
                (extractedPath, e.content) :: ws)
        | none => none
      else none

/-- Embedding of `extractImages`: returns the records and the disk writes
performed; any exception inside the loop is caught and the whole batch
yields `[]`. -/
def extractImages (z : Zip) (templatePath imagesDir : String) (uuid : Nat → String)
    (writeOk : String → Bool) : List ExtractedImage × List (String × List Nat) :=
  match extractGo z templatePath imagesDir uuid writeOk (mediaFileNames z) 0 with
  | some r => r
  | none => ([], [])

/-- Embedding of the source regex `^ppt\/slides\/slide\d+\.xml$`. -/
def isSlideFile (s : String) : Bool :=
  strStarts "ppt/slides/slide" s && strEnds ".xml" s &&
  (let n := "ppt/slides/slide".data.length
   let mid := (s.data.drop n).take (s.data.length - (n + ".xml".data.length))
   decide (0 < mid.length) && mid.all Char.isDigit)

/-- Embedding of the source regex `^ppt\/slideLayouts\/slideLayout\d+\.xml$`. -/
def isLayoutFile (s : String) : Bool :=
  strStarts "ppt/slideLayouts/slideLayout" s && strEnds ".xml" s &&
  (let n := "ppt/slideLayouts/slideLayout".data.length
   let mid := (s.data.drop n).take (s.data.length - (n + ".xml".data.length))
   decide (0 < mid.length) && mid.all Char.isDigit)

/-- Result of `analyzeSlideStructure`. -/
structure SlideStructure where
  slideCount : Nat
  layoutCount : Nat
  masterLayouts : List String
deriving DecidableEq, Repr

/-- Embedding of `analyzeSlideStructure`: counts slide and layout parts;
the five fixed names are pushed only when `slideMaster1.xml` is present
(reading it never fails in this model, so the inner catch is dead). -/
def analyzeSlideStructure (z : Zip) : SlideStructure :=
  { slideCount := ((z.files.map (fun e => e.name)).filter isSlideFile).length
    layoutCount := ((z.files.map (fun e => e.name)).filter isLayoutFile).length
    masterLayouts :=
      match z.file "ppt/slideMasters/slideMaster1.xml" with
      | some _ => ["Title Slide", "Content", "Two Column", "Image & Content", "Section Header"]
      | none => [] }

/-- The `TemplateAnalysis` record. -/
structure TemplateAnalysis where
  slideCount : Nat
  imageCount : Nat
  layoutCount : Nat
  colors : List String
  fonts : List String
  masterLayouts : List String
  extractedImages : List ExtractedImage
  themeData : ThemeData
deriving DecidableEq, Repr

/-- Embedding of `analyzeTemplate`. `fileExists` is `fs.existsSync` on the
template path; `zipLoad` is the result of `JSZip.loadAsync` on its bytes
(`none` = the bytes are not a valid archive, the promise rejects). Either
failure is caught and the hard-coded fallback analysis is returned. The
second component is the list of disk writes performed. -/
def analyzeTemplate (parse : List Nat → Option XmlRoot) (fileExists : Bool)
    (zipLoad : Option Zip) (templatePath imagesDir : String) (uuid : Nat → String)
    (writeOk : String → Bool) : TemplateAnalysis × List (String × List Nat) :=
  match fileExists, zipLoad with
  | true, some z =>
    let themeData := extractThemeData parse z
    let imgs := extractImages z templatePath imagesDir uuid writeOk
    let ss := analyzeSlideStructure z
    ({ slideCount := ss.slideCount
       imageCount := imgs.1.length
       layoutCount := ss.layoutCount
       colors := themeData.colorScheme.slots.filter (fun c => c != "" && c != "unknown")
       fonts := [themeData.fontScheme.majorFont, themeData.fontScheme.minorFont].filter
                  (fun f => f != "" && f != "unknown")
       masterLayouts := ss.masterLayouts
       extractedImages := imgs.1
       themeData := themeData }, imgs.2)
  | _, _ =>
    ({ slideCount := 12, imageCount := 0, layoutCount := 5
       colors := ["#2563EB", "#64748B", "#10B981", "#F59E0B"]
       fonts := ["Calibri", "Arial"]
       masterLayouts := ["Title Slide", "Content", "Two Column", "Image & Content", "Section Header"]
       extractedImages := []
       themeData :=
         { colorScheme :=
             { background1 := "#FFFFFF", text1 := "#000000", background2 := "#E7E6E6", text2 := "#44546A"
               accent1 := "#2563EB", accent2 := "#64748B", accent3 := "#10B981", accent4 := "#F59E0B"
               accent5 := "#8B5CF6", accent6 := "#EF4444", hyperlink := "#0066CC", followedHyperlink := "#954F72" }
           fontScheme := { majorFont := "Calibri", minorFont := "Calibri" }
           effectScheme := () } }, [])

/-- Reading a path from the writes performed by a run: the last write to
the path wins (`fs.writeFileSync` overwrites). -/
def fsRead (ws : List (String × List Nat)) (p : String) : Option (List Nat) :=
  (ws.reverse.find? (fun q => q.1 == p)).map (fun q => q.2)

/-- One record of the content model (`SlideData`). -/
structure SlideData where
  slideNumber : Nat
  title : String
  content : String
  layout : String
  speakerNotes : Option String
  imagePrompt : Option String
deriving DecidableEq, Repr

/-- The content model (`PresentationData`). -/
structure PresentationData where
  title : String
  slides : List SlideData
  totalSlides : Nat
  estimatedDuration : String
deriving DecidableEq, Repr

/-- The generation options consumed by the core (`options?.generateNotes`;
the remaining flags are accepted but never branched on). `none` for the
whole bag models an absent `options` argument; `none` for the field models
an options object without the key. -/
structure GenOptions where
  generateNotes : Option String
deriving DecidableEq, Repr

/-- Embedding of `options?.generateNotes !== "none"`. -/
def notesEnabled (options : Option GenOptions) : Bool :=
  match options with
  | none => true
  | some o => !(o.generateNotes == some "none")

/-- The render-ready style context. -/
structure StyleContext where
  titleColor : String
  textColor : String
  accentColor : String
  titleFont : String
  bodyFont : String
deriving DecidableEq, Repr

/-- Embedding of `getStyleContext`. -/
def getStyleContext (templateAnalysis : Option TemplateAnalysis) : StyleContext :=
  match templateAnalysis with
  | none =>
    { titleColor := "2563EB", textColor := "1F2937", accentColor := "64748B"
      titleFont := "Calibri", bodyFont := "Calibri" }
  | some a =>
    { titleColor := replaceFirstHash a.themeData.colorScheme.accent1
      textColor := replaceFirstHash a.themeData.colorScheme.text1
      accentColor := replaceFirstHash a.themeData.colorScheme.accent2
      titleFont := a.themeData.fontScheme.majorFont
      bodyFont := a.themeData.fontScheme.minorFont }

/-- The option bag of one `slide.addText` call; unset keys are `none` /
`false` / `0`. -/
structure TextOpts where
  x : Rat := 0
  y : Rat := 0
  w : Rat := 0
  h : Rat := 0
  fontSize : Option Nat := none
  fontFace : Option String := none
  color : Option String := none
  bold : Bool := false
  align : Option String := none
  valign : Option String := none
  fill : Option String := none
  border : Option (Nat × String) := none
deriving DecidableEq, Repr

/-- One visual element emitted onto a slide, in emission order. -/
inductive SlideElem : Type where
  | text : String → TextOpts → SlideElem
  | image : String → Rat → Rat → Rat → Rat → SlideElem
deriving DecidableEq, Repr

/-- A generated slide: background color, elements, attached notes. -/
structure Slide where
  background : String
  elems : List SlideElem
  notes : Option String
deriving DecidableEq, Repr

/-- Embedding of `createTitleSlide`. -/
def createTitleSlide (d : SlideData) (sc : StyleContext) : List SlideElem :=
  [.text d.title
     { x := 0.5, y := 1.5, w := 9, h := 1.8, fontSize := some 40
       fontFace := some sc.titleFont, color := some sc.titleColor, bold := true
       align := some "center", valign := some "middle" }] ++
  (if d.content != "" then
    [.text d.content
       { x := 0.5, y := 3.5, w := 9, h := 1.2, fontSize := some 20
         fontFace := some sc.bodyFont, color := some sc.accentColor
         align := some "center", valign := some "middle" }]
   else [])

/-- Embedding of `createContentSlide`. -/
def createContentSlide (d : SlideData) (sc : StyleContext) : List SlideElem :=
  [.text d.title
     { x := 0.5, y := 0.3, w := 9, h := 1, fontSize := some 32
       fontFace := some sc.titleFont, color := some sc.titleColor, bold := true
       align := some "left" },
   .text d.content
     { x := 0.5, y := 1.5, w := 9, h := 3.5, fontSize := some 18
       fontFace := some sc.bodyFont, color := some sc.textColor
       valign := some "top", align := some "left" }]

/-- The scanner of `content.split('\n\n')`: left-to-right, non-overlapping,
accumulating the current segment in reverse. -/
def splitBlankGo (cur : List Char) : List Char → List (List Char)
  | [] => [cur.reverse]
  | '\n' :: '\n' :: cs => cur.reverse :: splitBlankGo [] cs
  | c :: cs => splitBlankGo (c :: cur) cs

/-- Embedding of JS `s.split('\n\n')`. -/
def splitOnBlank (s : String) : List String :=
  (splitBlankGo [] s.data).map (fun l => ⟨l⟩)

/-- Embedding of JS `parts.join('\n\n')`. -/
def joinBlank : List String → String
  | [] => ""
  | [s] => s
  | s :: rest => s ++ "\n\n" ++ joinBlank rest

/-- Embedding of `createTwoColumnSlide`: the body is split on the
blank-line separator, the first `Math.ceil(n / 2)` paragraphs go left, the
rest right. -/
def createTwoColumnSlide (d : SlideData) (sc : StyleContext) : List SlideElem :=
  let contentParts := splitOnBlank d.content
  let leftContent := joinBlank (contentParts.take ((contentParts.length + 1) / 2))
  let rightContent := joinBlank (contentParts.drop ((contentParts.length + 1) / 2))
  [.text d.title
     { x := 0.5, y := 0.3, w := 9, h := 1, fontSize := some 32
       fontFace := some sc.titleFont, color := some sc.accentColor, bold := true
       align := some "left" },
   .text leftContent
     { x := 0.5, y := 1.5, w := 4.2, h := 3.5, fontSize := some 18
       fontFace := some sc.bodyFont, color := some sc.textColor
       valign := some "top", align := some "left" },
   .text rightContent
     { x := 5.2, y := 1.5, w := 4.2, h := 3.5, fontSize := some 18
       fontFace := some sc.bodyFont, color := some sc.textColor
       valign := some "top", align := some "left" }]

/-- Embedding of `selectImageForReuse`: the first available extracted
image, unconditionally. -/
def selectImageForReuse (templateAnalysis : Option TemplateAnalysis) : Option ExtractedImage :=
  match templateAnalysis with
  | none => none
  | some a =>
    match a.extractedImages with
    | [] => none
    | img :: _ => some img

/-- Embedding of `addImagePlaceholder` (the source file stores the leading
emoji as the four mojibake characters reproduced here). -/
def imagePlaceholderElem (sc : StyleContext) : SlideElem :=
  .text "ðŸ“Š Template Image\nPlaceholder"
    { x := 5.5, y := 2, w := 4, h := 2.5, fontSize := some 14
      fontFace := some sc.bodyFont, color := some sc.accentColor
      align := some "center", valign := some "middle"
      fill := some "F3F4F6", border := some (1, sc.accentColor) }

/-- Embedding of `createImageContentSlide`; `fe` is `fs.existsSync`.
`slide.addImage` with an on-disk path does not throw in this model, so the
inner catch path is dead. -/
def createImageContentSlide (d : SlideData) (sc : StyleContext)
    (templateAnalysis : Option TemplateAnalysis) (fe : String → Bool) : List SlideElem :=
  [.text d.title
     { x := 0.5, y := 0.5, w := 9, h := 0.8, fontSize := some 28
       fontFace := some sc.titleFont, color := some sc.titleColor, bold := true },
   .text d.content
     { x := 0.5, y := 1.5, w := 4.5, h := 3.5, fontSize := some 16
       fontFace := some sc.bodyFont, color := some sc.textColor
       valign := some "top" }] ++
  [match selectImageForReuse templateAnalysis with
   | some img =>
     if fe img.filePath then SlideElem.image img.filePath 5.5 2 4 2.5
     else imagePlaceholderElem sc
   | none => imagePlaceholderElem sc]

/-- Embedding of `createConclusionSlide`. -/
def createConclusionSlide (d : SlideData) (sc : StyleContext) : List SlideElem :=
  [.text d.title
     { x := 1, y := 1.5, w := 8, h := 1, fontSize := some 32
       fontFace := some sc.titleFont, color := some sc.titleColor, bold := true
       align := some "center" },
   .text d.content
     { x := 1, y := 2.8, w := 8, h := 2, fontSize := some 18
       fontFace := some sc.bodyFont, color := some sc.textColor
       align := some "center", valign := some "middle" }]

/-- Embedding of `createSlide`: background from the template (`|| "FFFFFF"`
when the stripped value is empty), layout dispatch with fallback to the
content layout, optional speaker notes. -/
def createSlide (d : SlideData) (options : Option GenOptions)
    (templateAnalysis : Option TemplateAnalysis) (fe : String → Bool) : Slide :=
  let bgColor :=
    match templateAnalysis with
    | none => "FFFFFF"
    | some a =>
      let b := replaceFirstHash a.themeData.colorScheme.background1
      if b = "" then "FFFFFF" else b
  let sc := getStyleContext templateAnalysis
  let elems :=
    if d.layout = "title_slide" then createTitleSlide d sc
    else if d.layout = "content" then createContentSlide d sc
    else if d.layout = "two_column" then createTwoColumnSlide d sc
    else if d.layout = "image_content" then createImageContentSlide d sc templateAnalysis fe
    else if d.layout = "conclusion" then createConclusionSlide d sc
    else createContentSlide d sc
  let notes :=
    match d.speakerNotes with
    | some s => if s != "" && notesEnabled options then some s else none
    | none => none
  { background := bgColor, elems := elems, notes := notes }

/-- The options of one master placeholder of `defineSlideMaster`. -/
structure PlaceholderOpts where
  name : String
  type : String
  x : Rat
  y : Rat
  w : Rat
  h : Rat
  fontFace : String
  color : String
  fontSize : Nat
deriving DecidableEq, Repr

/-- One placeholder object of the master slide. -/
structure PlaceholderObj where
  options : PlaceholderOpts
  text : String
deriving DecidableEq, Repr

/-- The master slide defined from extracted theme values. -/
structure SlideMasterDef where
  title : String
  background : String
  objects : List PlaceholderObj
deriving DecidableEq, Repr

/-- The `defineLayout` call. -/
structure LayoutDef where
  name : String
  width : Rat
  height : Rat
deriving DecidableEq, Repr

/-- Embedding of `applyExtractedStyling`: the 16:9 layout plus a master
carrying the extracted colors and fonts. -/
def applyExtractedStyling (ta : TemplateAnalysis) : LayoutDef × SlideMasterDef :=
  ({ name := "LAYOUT_16x9", width := 10, height := 5.625 },
   { title := "EXTRACTED_TEMPLATE"
     background := replaceFirstHash ta.themeData.colorScheme.background1
     objects :=
       [{ options :=
            { name := "title", type := "title", x := 0.5, y := 0.5, w := 9, h := 1.5
              fontFace := ta.themeData.fontScheme.majorFont
              color := replaceFirstHash ta.themeData.colorScheme.accent1
              fontSize := 28 }
          text := "Title Placeholder" },
        { options :=
            { name := "body", type := "body", x := 0.5, y := 2, w := 9, h := 3
              fontFace := ta.themeData.fontScheme.minorFont
              color := replaceFirstHash ta.themeData.colorScheme.text1
              fontSize := 16 }
          text := "Content Placeholder" }] })

/-- Embedding of `applyDefaultStyling`: only the 16:9 layout. -/
def applyDefaultStyling : LayoutDef :=
  { name := "LAYOUT_16x9", width := 10, height := 5.625 }

/-- Embedding of `title.replace(/[^a-zA-Z0-9]/g, '_')`. -/
def sanitizeTitle (s : String) : String :=
  ⟨s.data.map (fun c => if c.isAlphanum then c else '_')⟩

/-- The generated document: metadata, the defined layout and master, the
slides in order, and the output file name (placed under the uploads
directory by the caller-side configuration). -/
structure Presentation where
  author : String
  title : String
  subject : String
  layoutDef : Option LayoutDef
  master : Option SlideMasterDef
  slides : List Slide
  fileName : String
deriving DecidableEq, Repr

/-- Embedding of `generatePresentation`. `pathExists` is `fs.existsSync`;
`analysisOf` abstracts the `analyzeTemplate` call made when the template
path is present and exists (its disk side effects are not needed by the
claims about this function); `fe` is the existence check used for image
reuse inside the builders; `uuid` is the fresh `randomUUID()` of the output
file name. -/
def generatePresentation (pd : PresentationData) (templatePath : Option String)
    (pathExists : String → Bool) (analysisOf : String → TemplateAnalysis)
    (options : Option GenOptions) (fe : String → Bool) (uuid : String) : Presentation :=
  let templateAnalysis : Option TemplateAnalysis :=
    match templatePath with
    | some p => if p != "" && pathExists p then some (analysisOf p) else none
    | none => none
  let styled :=
    match templateAnalysis with
    | some a =>
      let lm := applyExtractedStyling a
      (some lm.1, some lm.2)
    | none => (some applyDefaultStyling, (none : Option SlideMasterDef))
  { author := "Auto PPT Generator"
    title := pd.title
    subject := "Generated Presentation"
    layoutDef := styled.1
    master := styled.2
    slides := pd.slides.map (fun d => createSlide d options templateAnalysis fe)
    fileName := sanitizeTitle pd.title ++ "_" ++ uuid ++ ".pptx" }

/-- A well-formed color slot element: every attribute the extractor reads
as an unchecked color source — the element's own `val` (branch c), the
first `srgbClr` node's `val` (branch a), and the first `sysClr` node's
`lastClr` (branch b) — is empty or six hex digits, as OOXML requires of
those attributes (branch d checks the pattern itself). -/
def goodColorElement (el : Xml) : Bool :=
  (match el.attr "val" with
   | some v => v == "" || isHex6 v
   | none => true) &&
  (match el.child2 "a:srgbClr" "srgbClr" with
   | some srgb =>
     match propVal srgb "val" with
     | .str v => v == "" || isHex6 v
     | _ => true
   | none => true) &&
  (match el.child2 "a:sysClr" "sysClr" with
   | some sys =>
     match propVal sys "lastClr" with
     | .str v => v == "" || isHex6 v
     | _ => true
   | none => true)

/-- Well-formedness of one slot's child array: only its first element is
read by the extractor. -/
def goodSlot (arr : Option (List Xml)) : Bool :=
  match arr with
  | some (el :: _) => goodColorElement el
  | _ => true

/-- Well-formedness of the 12 slots of a color-scheme element. -/
def goodScheme (scheme : Xml) : Bool :=
  goodSlot (scheme.child2 "a:lt1" "lt1") && goodSlot (scheme.child2 "a:dk1" "dk1") &&
  goodSlot (scheme.child2 "a:lt2" "lt2") && goodSlot (scheme.child2 "a:dk2" "dk2") &&
  goodSlot (scheme.child2 "a:accent1" "accent1") && goodSlot (scheme.child2 "a:accent2" "accent2") &&
  goodSlot (scheme.child2 "a:accent3" "accent3") && goodSlot (scheme.child2 "a:accent4" "accent4") &&
  goodSlot (scheme.child2 "a:accent5" "accent5") && goodSlot (scheme.child2 "a:accent6" "accent6") &&
  goodSlot (scheme.child2 "a:hlink" "hlink") && goodSlot (scheme.child2 "a:folHlink" "folHlink")

/-- A valid parsed theme: wherever the navigation of `parseColorScheme`
reaches a color-scheme element, that element's color sources are
well-formed hex values. -/
def goodTheme (root : XmlRoot) : Bool :=
  if root.tag == "a:theme" || root.tag == "theme" then
    match root.node.child2 "a:themeElements" "themeElements" with
    | some (te :: _) =>
      match te.child2 "a:clrScheme" "clrScheme" with
      | some (scheme :: _) => goodScheme scheme
      | _ => true
    | _ => true
  else true

/-- The media parts of a container: the entries under `ppt/media/` whose
extension is in the allow-list. -/
def mediaEntries (z : Zip) : List ZipEntry :=
  z.files.filter (fun e => isAllowedMedia e.name)

/-- The on-disk path the i-th extraction iteration writes for entry `e`. -/
def pathAt (imagesDir : String) (uuid : Nat → String) (e : ZipEntry) (i : Nat) : String :=
  imagePath imagesDir (uuid i) (basename e.name)

/-- Closed form of the records a fully successful extraction run produces
from the entries `es`, starting at uuid index `i`. -/
def imgsFrom (templatePath imagesDir : String) (uuid : Nat → String) :
    List ZipEntry → Nat → List ExtractedImage
  | [], _ => []
  | e :: rest, i =>
    { id := uuid i, originalName := basename e.name
      filePath := pathAt imagesDir uuid e i
      fileType := extOf (basename e.name), slideContext := some "template"
      description := some ("Extracted from " ++ basename templatePath) } ::
    imgsFrom templatePath imagesDir uuid rest (i + 1)

/-- Closed form of the disk writes of a fully successful extraction run. -/
def writesFrom (imagesDir : String) (uuid : Nat → String) :
    List ZipEntry → Nat → List (String × List Nat)
  | [], _ => []
  | e :: rest, i => (pathAt imagesDir uuid e i, e.content) :: writesFrom imagesDir uuid rest (i + 1)

/-- A concrete one-slide content model used to instantiate theorems. -/
def pdW : PresentationData :=
  { title := "Demo Deck", slides := [⟨1, "T", "C", "content", none, none⟩]
    totalSlides := 1, estimatedDuration := "5 min" }

/-- A concrete template analysis used to instantiate theorems. -/
def taW : TemplateAnalysis :=
  { slideCount := 3, imageCount := 0, layoutCount := 2, colors := [], fonts := []
    masterLayouts := [], extractedImages := [], themeData := getDefaultThemeData }

theorem removeFirstHash_of_not_mem (l : List Char) (h : '#' ∉ l) : removeFirstHash l = l := by
  induction l with
  | nil => rfl
  | cons c cs ih =>
    have hc : c ≠ '#' := fun hh => h (hh ▸ List.mem_cons_self c cs)
    have hcs : '#' ∉ cs := fun hm => h (List.mem_cons_of_mem c hm)
    simp [removeFirstHash, hc, ih hcs]

theorem replaceFirstHash_eq_strip (s : String) (h : goodHexStr s) :
    replaceFirstHash s = stripLeadingHash s := by
  obtain ⟨data⟩ := s
  rcases h with h | h
  · cases data with
    | nil => simp at h
    | cons c cs =>
      have hc : c = '#' := by simpa using h
      subst hc
      simp [replaceFirstHash, removeFirstHash, stripLeadingHash]
  · have hr : removeFirstHash data = data := removeFirstHash_of_not_mem data h
    have hh : ¬ data.head? = some '#' := by
      intro hhd
      cases data with
      | nil => simp at hhd
      | cons c cs =>
        have : c = '#' := by simpa using hhd
        exact h (this ▸ List.mem_cons_self c cs)
    simp [replaceFirstHash, stripLeadingHash, hr, hh]

/-- C1: for template bytes that are not a valid zip archive the aggregator
`analyzeTemplate` propagates no error and returns exactly the hard-coded
baseline analysis (12 slides, 0 images, 5 layouts, the 4-color palette,
Calibri/Arial, the 5 default layout names, no extracted images, and the
baseline theme data), performing no disk write. -/
theorem analyzeTemplate_corrupt_returns_baseline (parse : List Nat → Option XmlRoot)
    (templatePath imagesDir : String) (uuid : Nat → String) (writeOk : String → Bool) :
    analyzeTemplate parse true none templatePath imagesDir uuid writeOk =
      ({ slideCount := 12, imageCount := 0, layoutCount := 5
         colors := ["#2563EB", "#64748B", "#10B981", "#F59E0B"]
         fonts := ["Calibri", "Arial"]
         masterLayouts := ["Title Slide", "Content", "Two Column", "Image & Content", "Section Header"]
         extractedImages := []
         themeData :=
           { colorScheme :=
               { background1 := "#FFFFFF", text1 := "#000000", background2 := "#E7E6E6", text2 := "#44546A"
                 accent1 := "#2563EB", accent2 := "#64748B", accent3 := "#10B981", accent4 := "#F59E0B"
                 accent5 := "#8B5CF6", accent6 := "#EF4444", hyperlink := "#0066CC", followedHyperlink := "#954F72" }
             fontScheme := { majorFont := "Calibri", minorFont := "Calibri" }
             effectScheme := () } }, []) := rfl

/-- C2: when the container holds no part named `ppt/theme/theme1.xml`, the
theme extractor returns, without error, exactly the default theme data. -/
theorem extractThemeData_missing_part_default (parse : List Nat → Option XmlRoot) (z : Zip)
    (h : ∀ e ∈ z.files, e.name ≠ "ppt/theme/theme1.xml") :
    extractThemeData parse z =
      { colorScheme :=
          { background1 := "#FFFFFF", text1 := "#000000", background2 := "#E7E6E6", text2 := "#44546A"
            accent1 := "#5B9BD5", accent2 := "#70AD47", accent3 := "#A5A5A5", accent4 := "#FFC000"
            accent5 := "#4472C4", accent6 := "#C5504B", hyperlink := "#0066CC", followedHyperlink := "#954F72" }
        fontScheme := { majorFont := "Calibri", minorFont := "Calibri" }
        effectScheme := () } := by
  have hfind : z.files.find? (fun e => e.name == "ppt/theme/theme1.xml") = none :=
    List.find?_eq_none.mpr (fun e he => by simpa using h e he)
  have hf : z.file "ppt/theme/theme1.xml" = none := by
    unfold Zip.file
    rw [hfind]
  unfold extractThemeData
  rw [hf]
  rfl

theorem extractThemeData_missing_part_default_witness :
    extractThemeData (fun _ => none) ⟨[]⟩ =
      { colorScheme :=
          { background1 := "#FFFFFF", text1 := "#000000", background2 := "#E7E6E6", text2 := "#44546A"
            accent1 := "#5B9BD5", accent2 := "#70AD47", accent3 := "#A5A5A5", accent4 := "#FFC000"
            accent5 := "#4472C4", accent6 := "#C5504B", hyperlink := "#0066CC", followedHyperlink := "#954F72" }
        fontScheme := { majorFont := "Calibri", minorFont := "Calibri" }
        effectScheme := () } :=
  extractThemeData_missing_part_default (fun _ => none) ⟨[]⟩ (by intro e he; cases he)

/-- C4: the style context resolver returns the fixed defaults when no
analysis is given; given an analysis (whose colors carry their `#` in
leading position if at all, as the service produces them), it returns
accent1 / text1 / accent2 with the leading `#` stripped, plus the major and
minor fonts. -/
theorem getStyleContext_resolves :
    getStyleContext none =
      { titleColor := "2563EB", textColor := "1F2937", accentColor := "64748B"
        titleFont := "Calibri", bodyFont := "Calibri" } ∧
    ∀ a : TemplateAnalysis,
      goodHexStr a.themeData.colorScheme.accent1 →
      goodHexStr a.themeData.colorScheme.text1 →
      goodHexStr a.themeData.colorScheme.accent2 →
      getStyleContext (some a) =
        { titleColor := stripLeadingHash a.themeData.colorScheme.accent1
          textColor := stripLeadingHash a.themeData.colorScheme.text1
          accentColor := stripLeadingHash a.themeData.colorScheme.accent2
          titleFont := a.themeData.fontScheme.majorFont
          bodyFont := a.themeData.fontScheme.minorFont } := by
  refine ⟨rfl, ?_⟩
  intro a h1 h2 h3
  simp [getStyleContext, replaceFirstHash_eq_strip _ h1, replaceFirstHash_eq_strip _ h2,
        replaceFirstHash_eq_strip _ h3]

theorem getStyleContext_resolves_witness :
    getStyleContext (some taW) =
      { titleColor := "5B9BD5", textColor := "000000", accentColor := "70AD47"
        titleFont := "Calibri", bodyFont := "Calibri" } :=
  (getStyleContext_resolves.2 taW (Or.inl rfl) (Or.inl rfl) (Or.inl rfl)).trans (by decide)

/-- C5: a `two_column` slide splits its content on the blank-line separator
into `n` paragraphs, rejoining the first `⌈n/2⌉ = (n+1)/2` in the left
column and the rest in the right; in particular `"A\n\nB\n\nC\n\nD"` yields
left `"A\n\nB"` and right `"C\n\nD"`. -/
theorem createTwoColumnSlide_ceiling_split (d : SlideData) (sc : StyleContext) :
    (∃ t lo ro : TextOpts,
      createTwoColumnSlide d sc =
        [.text d.title t,
         .text (joinBlank ((splitOnBlank d.content).take
            (((splitOnBlank d.content).length + 1) / 2))) lo,
         .text (joinBlank ((splitOnBlank d.content).drop
            (((splitOnBlank d.content).length + 1) / 2))) ro]) ∧
    (joinBlank ((splitOnBlank "A\n\nB\n\nC\n\nD").take
        (((splitOnBlank "A\n\nB\n\nC\n\nD").length + 1) / 2)) = "A\n\nB" ∧
     joinBlank ((splitOnBlank "A\n\nB\n\nC\n\nD").drop
        (((splitOnBlank "A\n\nB\n\nC\n\nD").length + 1) / 2)) = "C\n\nD") :=
  ⟨⟨_, _, _, rfl⟩, by decide, by decide⟩

/-- C6: a slide record whose layout is none of the five recognized names is
rendered exactly as the same record with layout `content`. -/
theorem createSlide_unknown_layout_as_content (d : SlideData) (options : Option GenOptions)
    (ta : Option TemplateAnalysis) (fe : String → Bool)
    (h1 : d.layout ≠ "title_slide") (h2 : d.layout ≠ "content") (h3 : d.layout ≠ "two_column")
    (h4 : d.layout ≠ "image_content") (h5 : d.layout ≠ "conclusion") :
    createSlide d options ta fe = createSlide { d with layout := "content" } options ta fe := by
  simp [createSlide, h1, h2, h3, h4, h5, createContentSlide]

theorem createSlide_unknown_layout_as_content_witness :
    createSlide ⟨1, "T", "C", "weird", none, none⟩ none none (fun _ => false) =
      createSlide ⟨1, "T", "C", "content", none, none⟩ none none (fun _ => false) :=
  createSlide_unknown_layout_as_content ⟨1, "T", "C", "weird", none, none⟩ none none
    (fun _ => false) (by decide) (by decide) (by decide) (by decide) (by decide)

/-- C10: generating with a template path that does not exist on the
filesystem produces exactly the document produced with no template path at
all — the analysis oracle is never consulted (the two sides may even carry
different ones) and the default styling applies. -/
theorem generatePresentation_missing_template_as_none (pd : PresentationData) (p : String)
    (pathExists : String → Bool) (analysisOf analysisOf2 : String → TemplateAnalysis)
    (options : Option GenOptions) (fe : String → Bool) (uuid : String)
    (h : pathExists p = false) :
    generatePresentation pd (some p) pathExists analysisOf options fe uuid =
      generatePresentation pd none pathExists analysisOf2 options fe uuid := by
  simp [generatePresentation, h]

theorem generatePresentation_missing_template_as_none_witness :
    generatePresentation pdW (some "uploads/missing.pptx") (fun _ => false) (fun _ => taW)
        none (fun _ => false) "u-1" =
      generatePresentation pdW none (fun _ => false) (fun _ => taW) none (fun _ => false) "u-1" :=
  generatePresentation_missing_template_as_none pdW "uploads/missing.pptx" (fun _ => false)
    (fun _ => taW) (fun _ => taW) none (fun _ => false) "u-1" rfl

/-- C9: the image-content builder never fails: when the analysis provides a
non-empty extracted-image list and the first image's file exists on disk,
that first image (in extraction order, unconditionally) is placed on the
slide; otherwise — absent analysis, zero images, or a missing file — the
styled placeholder box is rendered instead. -/
theorem createImageContentSlide_first_or_placeholder (d : SlideData) (sc : StyleContext)
    (ta : Option TemplateAnalysis) (fe : String → Bool) :
    (∀ a img rest, ta = some a → a.extractedImages = img :: rest → fe img.filePath = true →
      createImageContentSlide d sc ta fe =
        [.text d.title
           { x := 0.5, y := 0.5, w := 9, h := 0.8, fontSize := some 28
             fontFace := some sc.titleFont, color := some sc.titleColor, bold := true },
         .text d.content
           { x := 0.5, y := 1.5, w := 4.5, h := 3.5, fontSize := some 16
             fontFace := some sc.bodyFont, color := some sc.textColor, valign := some "top" },
         .image img.filePath 5.5 2 4 2.5]) ∧
    ((selectImageForReuse ta = none ∨
        ∃ img, selectImageForReuse ta = some img ∧ fe img.filePath = false) →
      createImageContentSlide d sc ta fe =
        [.text d.title
           { x := 0.5, y := 0.5, w := 9, h := 0.8, fontSize := some 28
             fontFace := some sc.titleFont, color := some sc.titleColor, bold := true },
         .text d.content
           { x := 0.5, y := 1.5, w := 4.5, h := 3.5, fontSize := some 16
             fontFace := some sc.bodyFont, color := some sc.textColor, valign := some "top" },
         imagePlaceholderElem sc]) := by
  constructor
  · intro a img rest hta himg hfe
    subst hta
    simp [createImageContentSlide, selectImageForReuse, himg, hfe]
  · intro h
    rcases h with h | ⟨img, hsel, hfe⟩
    · simp [createImageContentSlide, h]
    · simp [createImageContentSlide, hsel, hfe]

/-- An extracted-image record used to instantiate theorems. -/
def imgW : ExtractedImage :=
  { id := "u0", originalName := "a.png", filePath := "uploads/extracted_images/u0_a.png"
    fileType := "png", slideContext := some "template", description := some "Extracted from t.pptx" }

/-- A template analysis holding one extracted image. -/
def taI : TemplateAnalysis :=
  { taW with imageCount := 1, extractedImages := [imgW] }

theorem createImageContentSlide_first_or_placeholder_witness :
    createImageContentSlide ⟨2, "T", "C", "image_content", none, none⟩ (getStyleContext none)
        (some taI) (fun _ => true) =
      [.text "T"
         { x := 0.5, y := 0.5, w := 9, h := 0.8, fontSize := some 28
           fontFace := some (getStyleContext none).titleFont
           color := some (getStyleContext none).titleColor, bold := true },
       .text "C"
         { x := 0.5, y := 1.5, w := 4.5, h := 3.5, fontSize := some 16
           fontFace := some (getStyleContext none).bodyFont
           color := some (getStyleContext none).textColor, valign := some "top" },
       .image imgW.filePath 5.5 2 4 2.5] ∧
    createImageContentSlide ⟨2, "T", "C", "image_content", none, none⟩ (getStyleContext none)
        none (fun _ => true) =
      [.text "T"
         { x := 0.5, y := 0.5, w := 9, h := 0.8, fontSize := some 28
           fontFace := some (getStyleContext none).titleFont
           color := some (getStyleContext none).titleColor, bold := true },
       .text "C"
         { x := 0.5, y := 1.5, w := 4.5, h := 3.5, fontSize := some 16
           fontFace := some (getStyleContext none).bodyFont
           color := some (getStyleContext none).textColor, valign := some "top" },
       imagePlaceholderElem (getStyleContext none)] :=
  ⟨(createImageContentSlide_first_or_placeholder ⟨2, "T", "C", "image_content", none, none⟩
      (getStyleContext none) (some taI) (fun _ => true)).1 taI imgW [] rfl rfl rfl,
   (createImageContentSlide_first_or_placeholder ⟨2, "T", "C", "image_content", none, none⟩
      (getStyleContext none) none (fun _ => true)).2 (Or.inl rfl)⟩

/-- C7 counterexample: in a container with two allow-listed media parts, a
write failure on the first part alone makes `extractImages` return the
empty list — no record is produced for the second part even though its own
write would succeed, refuting per-part best-effort extraction. -/
theorem extractImages_single_failure_aborts_cex :
    (extractImages ⟨[⟨"ppt/media/a.png", false, [1, 2]⟩, ⟨"ppt/media/b.jpg", false, [3]⟩]⟩
        "tpl.pptx" "img" (fun i => if i = 0 then "u0" else "u1")
        (fun p => p != "img/u0_a.png")).1 = [] ∧
    (fun p : String => p != "img/u0_a.png") "img/u1_b.jpg" = true ∧
    isAllowedMedia "ppt/media/b.jpg" = true :=
  ⟨by decide, by decide, by decide⟩

theorem extractGo_some_length (z : Zip) (tp dir : String) (uuid : Nat → String)
    (wOk : String → Bool) :
    ∀ (names : List String) (i : Nat) (imgs : List ExtractedImage) (ws : List (String × List Nat)),
      extractGo z tp dir uuid wOk names i = some (imgs, ws) →
      imgs.length = (names.filter (fun nm => (z.file nm).isSome)).length := by
  intro names
  induction names with
  | nil =>
    intro i imgs ws h
    simp only [extractGo, Option.some.injEq, Prod.mk.injEq] at h
    obtain ⟨h1, h2⟩ := h
    simp [← h1]
  | cons nm rest ih =>
    intro i imgs ws h
    cases hz : z.file nm with
    | none =>
      simp only [extractGo, hz] at h
      simpa [List.filter_cons, hz] using ih i imgs ws h
    | some e =>
      cases hw : wOk (imagePath dir (uuid i) (basename nm)) with
      | false =>
        simp [extractGo, hz, hw] at h
      | true =>
        cases hrec : extractGo z tp dir uuid wOk rest (i + 1) with
        | none =>
          simp [extractGo, hz, hw, hrec] at h
        | some r =>
          obtain ⟨imgs2, ws2⟩ := r
          simp only [extractGo, hz, hw, if_true, hrec, Option.some.injEq, Prod.mk.injEq] at h
          obtain ⟨h1, h2⟩ := h
          subst h1
          simp [List.filter_cons, hz, ih (i + 1) imgs2 ws2 hrec]

theorem find_entry_of_nodup (l : List ZipEntry) (e : ZipEntry)
    (hnd : (l.map (fun x => x.name)).Nodup) (he : e ∈ l) :
    l.find? (fun x => x.name == e.name) = some e := by
  induction l with
  | nil => cases he
  | cons a rest ih =>
    rw [List.map_cons, List.nodup_cons] at hnd
    rcases List.mem_cons.mp he with rfl | hmem
    · simp [List.find?_cons]
    · have hne : (a.name == e.name) = false := by
        refine beq_eq_false_iff_ne.mpr ?_
        intro hEq
        exact hnd.1 (hEq ▸ List.mem_map.mpr ⟨e, hmem, rfl⟩)
      rw [List.find?_cons, hne]
      exact ih hnd.2 hmem

theorem zip_file_eq (z : Zip) (e : ZipEntry)
    (hnd : (z.files.map (fun x => x.name)).Nodup) (he : e ∈ z.files) (hd : e.dir = false) :
    z.file e.name = some e := by
  unfold Zip.file
  rw [find_entry_of_nodup z.files e hnd he]
  show (if e.dir = true then none else some e) = some e
  rw [hd]
  rfl

theorem filter_map_name (l : List ZipEntry) :
    (l.map (fun e => e.name)).filter isAllowedMedia =
      (l.filter (fun e => isAllowedMedia e.name)).map (fun e => e.name) := by
  induction l with
  | nil => rfl
  | cons a rest ih =>
    by_cases h : isAllowedMedia a.name = true
    · simp [List.filter_cons, h, ih]
    · simp [List.filter_cons, Bool.of_not_eq_true h, ih]

theorem mediaFileNames_eq (z : Zip) :
    mediaFileNames z = (mediaEntries z).map (fun e => e.name) := by
  unfold mediaFileNames mediaEntries
  exact filter_map_name z.files

/-- C7 (amended): a failure while extracting any single media part aborts
the whole batch — `extractImages` catches it and returns the empty list
rather than raising; consequently the result is all-or-nothing: either the
empty list, or one record per allow-listed media part. -/
theorem extractImages_all_or_nothing (z : Zip) (tp dir : String) (uuid : Nat → String)
    (wOk : String → Bool)
    (hnd : (z.files.map (fun e => e.name)).Nodup)
    (hdir : ∀ e ∈ z.files, isAllowedMedia e.name = true → e.dir = false) :
    (extractImages z tp dir uuid wOk).1 = [] ∨
    (extractImages z tp dir uuid wOk).1.length = (mediaEntries z).length := by
  rcases hgo : extractGo z tp dir uuid wOk (mediaFileNames z) 0 with _ | ⟨imgs, ws⟩
  · left
    unfold extractImages
    rw [hgo]
  · right
    unfold extractImages
    rw [hgo]
    have hlen := extractGo_some_length z tp dir uuid wOk (mediaFileNames z) 0 imgs ws hgo
    have hall : ∀ nm ∈ mediaFileNames z, ((z.file nm).isSome : Bool) = true := by
      intro nm hm
      rw [mediaFileNames_eq] at hm
      obtain ⟨e, he, rfl⟩ := List.mem_map.mp hm
      have heF : e ∈ z.files ∧ isAllowedMedia e.name = true := by
        simpa [mediaEntries, List.mem_filter] using he
      rw [zip_file_eq z e hnd heF.1 (hdir e heF.1 heF.2)]
      rfl
    rw [List.filter_eq_self.mpr hall, mediaFileNames_eq, List.length_map] at hlen
    exact hlen

theorem andE {a b : Bool} (h : (a && b) = true) : a = true ∧ b = true := by
  simp only [Bool.and_eq_true] at h
  exact h

theorem orE {a b : Bool} (h : (a || b) = true) : a = true ∨ b = true := by
  simp only [Bool.or_eq_true] at h
  exact h

theorem hex_upper_all :
    hexDigitChars.all (fun c => upperHexChars.contains (Char.toUpper c)) = true := by decide

theorem hexPattern_hash_upper (v : String) (h : isHex6 v = true) :
    hexPattern ("#" ++ upperStr v) = true := by
  unfold isHex6 at h
  obtain ⟨hlen, hall⟩ := andE h
  have hdata : ("#" ++ upperStr v).data = '#' :: v.data.map Char.toUpper := by
    rw [String.data_append]
    rfl
  unfold hexPattern
  rw [hdata]
  show ((v.data.map Char.toUpper).length == 6 &&
    (v.data.map Char.toUpper).all (fun c => upperHexChars.contains c)) = true
  rw [Bool.and_eq_true]
  constructor
  · rw [List.length_map]
    exact hlen
  · rw [List.all_map]
    refine List.all_eq_true.mpr ?_
    intro c hc
    have hcmem : c ∈ hexDigitChars := List.elem_iff.mp (List.all_eq_true.mp hall c hc)
    simpa using List.all_eq_true.mp hex_upper_all c hcmem

theorem hex_of_or (v : String) (hor : (v == "" || isHex6 v) = true) (hv : v ≠ "") :
    isHex6 v = true := by
  rcases orE hor with h | h
  · exact absurd (eq_of_beq h) hv
  · exact h

theorem tryBranchD_pattern (el : Xml) (s : String) (h : tryBranchD el = some s) :
    hexPattern s = true := by
  unfold tryBranchD at h
  obtain ⟨p, hp, hf⟩ := List.exists_of_findSome?_eq_some h
  by_cases hclr : containsSub "Clr" p.1 = true
  · rw [if_pos hclr] at hf
    cases hns : p.2 with
    | nil => rw [hns] at hf; cases hf
    | cons n rest =>
      rw [hns] at hf
      by_cases ha : n.attrs.isEmpty = true
      · simp [ha] at hf
      · simp only [ha, if_false, Bool.false_eq_true] at hf
        cases hattr : n.attr "val" with
        | none => simp [hattr] at hf
        | some v =>
          simp only [hattr] at hf
          by_cases hcond : (v != "" && isHex6 v) = true
          · rw [if_pos hcond] at hf
            cases hf
            exact hexPattern_hash_upper v (andE hcond).2
          · rw [if_neg hcond] at hf
            cases hf
  · rw [if_neg hclr] at hf
    cases hf

theorem tryBranchC_pattern (el : Xml) (s : String)
    (hC : (match el.attr "val" with
           | some v => v == "" || isHex6 v
           | none => true) = true)
    (h : tryBranchC el = some s) : hexPattern s = true := by
  unfold tryBranchC at h
  by_cases ha : el.attrs.isEmpty = true
  · rw [if_pos ha] at h
    exact tryBranchD_pattern el s h
  · rw [if_neg ha] at h
    cases hattr : el.attr "val" with
    | none =>
      simp only [hattr] at h
      exact tryBranchD_pattern el s h
    | some v =>
      simp only [hattr] at h hC
      by_cases hv : v = ""
      · rw [if_pos hv] at h
        exact tryBranchD_pattern el s h
      · rw [if_neg hv] at h
        cases h
        exact hexPattern_hash_upper v (hex_of_or v hC hv)

theorem tryBranchB_pattern (el : Xml) (s : String)
    (hB : (match el.child2 "a:sysClr" "sysClr" with
           | some sys =>
             match propVal sys "lastClr" with
             | .str v => v == "" || isHex6 v
             | _ => true
           | none => true) = true)
    (hC : (match el.attr "val" with
           | some v => v == "" || isHex6 v
           | none => true) = true)
    (h : tryBranchB el = some s) : hexPattern s = true := by
  unfold tryBranchB at h
  cases hch : el.child2 "a:sysClr" "sysClr" with
  | none =>
    simp only [hch] at h
    exact tryBranchC_pattern el s hC h
  | some sys =>
    simp only [hch] at h hB
    cases hp : propVal sys "lastClr" with
    | missing =>
      simp only [hp] at h
      exact tryBranchC_pattern el s hC h
    | arr =>
      simp only [hp] at h
      cases h
    | str v =>
      simp only [hp] at h hB
      by_cases hv : v = ""
      · rw [if_pos hv] at h
        exact tryBranchC_pattern el s hC h
      · rw [if_neg hv] at h
        cases h
        exact hexPattern_hash_upper v (hex_of_or v hB hv)

theorem extractColorValue_pattern (el : Xml) (rest : List Xml) (s : String)
    (hg : goodColorElement el = true)
    (h : extractColorValue (some (el :: rest)) = some s) : hexPattern s = true := by
  unfold goodColorElement at hg
  obtain ⟨hg1, hB⟩ := andE hg
  obtain ⟨hC, hA⟩ := andE hg1
  unfold extractColorValue at h
  cases hch : el.child2 "a:srgbClr" "srgbClr" with
  | none =>
    simp only [hch] at h
    exact tryBranchB_pattern el s hB hC h
  | some srgb =>
    simp only [hch] at h hA
    cases hp : propVal srgb "val" with
    | missing =>
      simp only [hp] at h
      exact tryBranchB_pattern el s hB hC h
    | arr =>
      simp only [hp] at h
      cases h
    | str v =>
      simp only [hp] at h hA
      by_cases hv : v = ""
      · rw [if_pos hv] at h
        exact tryBranchB_pattern el s hB hC h
      · rw [if_neg hv] at h
        cases h
        exact hexPattern_hash_upper v (hex_of_or v hA hv)

theorem slot_pattern (arr : Option (List Xml)) (d : String)
    (hg : goodSlot arr = true) (hd : hexPattern d = true) :
    hexPattern ((extractColorValue arr).getD d) = true := by
  cases arr with
  | none => simpa [extractColorValue] using hd
  | some els =>
    cases els with
    | nil => simpa [extractColorValue] using hd
    | cons el rest =>
      unfold goodSlot at hg
      cases hev : extractColorValue (some (el :: rest)) with
      | none => simpa [hev] using hd
      | some s =>
        have := extractColorValue_pattern el rest s hg hev
        simpa [hev] using this

theorem parseColorScheme_pattern (root : XmlRoot) (hg : goodTheme root = true) :
    ((parseColorScheme root).slots).all hexPattern = true := by
  unfold parseColorScheme
  unfold goodTheme at hg
  by_cases htag : (root.tag == "a:theme" || root.tag == "theme") = true
  · rw [if_pos htag]
    rw [if_pos htag] at hg
    cases hte : root.node.child2 "a:themeElements" "themeElements" with
    | none => decide
    | some tes =>
      simp only [hte] at hg ⊢
      cases tes with
      | nil => decide
      | cons te rest =>
        cases hcs : te.child2 "a:clrScheme" "clrScheme" with
        | none => simp only [hcs]; decide
        | some cs =>
          simp only [hcs] at hg ⊢
          cases cs with
          | nil => decide
          | cons scheme rest2 =>
            simp only [goodScheme, Bool.and_eq_true, and_assoc] at hg
            obtain ⟨g1, g2, g3, g4, g5, g6, g7, g8, g9, g10, g11, g12⟩ := hg
            simp only [ColorScheme.slots, List.all_cons, List.all_nil, Bool.and_eq_true]
            exact ⟨slot_pattern _ _ g1 (by decide), slot_pattern _ _ g2 (by decide),
                   slot_pattern _ _ g3 (by decide), slot_pattern _ _ g4 (by decide),
                   slot_pattern _ _ g5 (by decide), slot_pattern _ _ g6 (by decide),
                   slot_pattern _ _ g7 (by decide), slot_pattern _ _ g8 (by decide),
                   slot_pattern _ _ g9 (by decide), slot_pattern _ _ g10 (by decide),
                   slot_pattern _ _ g11 (by decide), slot_pattern _ _ g12 (by decide), trivial⟩
  · rw [if_neg htag]
    rw [if_neg htag] at hg
    decide

/-- C3: for a valid template with a recognizable theme part (every
attribute the extractor reads as an unchecked color source is six hex
digits, as OOXML requires), every one of the 12 color-scheme slots produced
by theme extraction is populated and matches `^#[0-9A-F]{6}$`. -/
theorem extractThemeData_colors_wellformed (parse : List Nat → Option XmlRoot) (z : Zip)
    (f : ZipEntry) (root : XmlRoot)
    (hf : z.file "ppt/theme/theme1.xml" = some f)
    (hp : parse f.content = some root)
    (hg : goodTheme root = true) :
    ((extractThemeData parse z).colorScheme.slots).all hexPattern = true := by
  unfold extractThemeData
  simp only [hf, hp]
  exact parseColorScheme_pattern root hg

/-- A concrete parsed theme tree with an explicit-RGB slot and a
system-color slot (whose `val` is a color name, as real themes have). -/
def rootW : XmlRoot :=
  ⟨"a:theme",
   .mk [] [("a:themeElements",
     [.mk [] [("a:clrScheme",
       [.mk [] [("a:lt1", [.mk [] [("a:srgbClr", [.mk [("val", "ff00aa")] []])]]),
                ("a:dk1", [.mk [] [("a:sysClr",
                   [.mk [("val", "windowText"), ("lastClr", "1a2b3c")] []])]])]])]])]⟩

/-- A one-part container holding a theme part. -/
def zThemeW : Zip := ⟨[⟨"ppt/theme/theme1.xml", false, [60]⟩]⟩

theorem extractThemeData_colors_wellformed_witness :
    ((extractThemeData (fun _ => some rootW) zThemeW).colorScheme.slots).all hexPattern = true :=
  extractThemeData_colors_wellformed (fun _ => some rootW) zThemeW
    ⟨"ppt/theme/theme1.xml", false, [60]⟩ rootW (by decide) rfl (by decide)

theorem strExt (s t : String) (h : s.data = t.data) : s = t := by
  cases s
  cases t
  cases h
  rfl

theorem extractGo_success (z : Zip) (tp dir : String) (uuid : Nat → String)
    (wOk : String → Bool) (hw : ∀ p, wOk p = true) :
    ∀ (es : List ZipEntry) (i : Nat),
      (∀ e ∈ es, z.file e.name = some e) →
      extractGo z tp dir uuid wOk (es.map (fun e => e.name)) i =
        some (imgsFrom tp dir uuid es i, writesFrom dir uuid es i) := by
  intro es
  induction es with
  | nil => intro i _; rfl
  | cons e rest ih =>
    intro i hf
    have he : z.file e.name = some e := hf e (List.mem_cons_self e rest)
    have hrest : ∀ x ∈ rest, z.file x.name = some x :=
      fun x hx => hf x (List.mem_cons_of_mem e hx)
    simp [extractGo, he, hw, ih (i + 1) hrest, imgsFrom, writesFrom, pathAt, imagePath]

theorem imgsFrom_length (tp dir : String) (uuid : Nat → String) :
    ∀ (es : List ZipEntry) (i : Nat), (imgsFrom tp dir uuid es i).length = es.length := by
  intro es
  induction es with
  | nil => intro i; rfl
  | cons e rest ih => intro i; simp [imgsFrom, ih (i + 1)]

theorem imgsFrom_writes_mem (tp dir : String) (uuid : Nat → String) :
    ∀ (es : List ZipEntry) (i : Nat),
      List.Forall₂ (fun (e : ZipEntry) (img : ExtractedImage) =>
        (img.filePath, e.content) ∈ writesFrom dir uuid es i) es (imgsFrom tp dir uuid es i) := by
  intro es
  induction es with
  | nil => intro i; exact List.Forall₂.nil
  | cons e rest ih =>
    intro i
    refine List.Forall₂.cons ?_ ?_
    · simp [imgsFrom, writesFrom]
    · exact (ih (i + 1)).imp (fun _ _ hx => List.mem_cons_of_mem _ hx)

theorem writesFrom_path_mem (dir : String) (uuid : Nat → String) :
    ∀ (es : List ZipEntry) (i : Nat) (w : String × List Nat),
      w ∈ writesFrom dir uuid es i →
      ∃ j e, i ≤ j ∧ e ∈ es ∧ w.1 = pathAt dir uuid e j := by
  intro es
  induction es with
  | nil => intro i w hw; simp [writesFrom] at hw
  | cons e rest ih =>
    intro i w hw
    rw [writesFrom] at hw
    rcases List.mem_cons.mp hw with rfl | hmem
    · exact ⟨i, e, le_refl i, List.mem_cons_self e rest, rfl⟩
    · obtain ⟨j, e2, hij, he2, hpath⟩ := ih (i + 1) w hmem
      exact ⟨j, e2, by omega, List.mem_cons_of_mem e he2, hpath⟩

theorem takeWhile_append_underscore (l r : List Char) (hl : ∀ c ∈ l, c ≠ '_') :
    (l ++ '_' :: r).takeWhile (fun c => c != '_') = l := by
  induction l with
  | nil => simp
  | cons c cs ih =>
    have hc : (c != '_') = true := bne_iff_ne.mpr (hl c (List.mem_cons_self c cs))
    simp [List.takeWhile_cons, hc, ih (fun x hx => hl x (List.mem_cons_of_mem c hx))]

theorem pathAt_inj (dir : String) (uuid : Nat → String) (hu : ∀ i, '_' ∉ (uuid i).data)
    (e1 e2 : ZipEntry) (j1 j2 : Nat)
    (h : pathAt dir uuid e1 j1 = pathAt dir uuid e2 j2) : uuid j1 = uuid j2 := by
  have hd : (pathAt dir uuid e1 j1).data = (pathAt dir uuid e2 j2).data := by rw [h]
  unfold pathAt imagePath at hd
  simp only [String.data_append, List.append_assoc] at hd
  have hd2 := List.append_cancel_left hd
  simp only [List.singleton_append, List.cons.injEq, true_and] at hd2
  have hchars : ∀ j, ∀ c ∈ (uuid j).data, c ≠ '_' :=
    fun j c hc he => (hu j) (he ▸ hc)
  have ht1 := takeWhile_append_underscore (uuid j1).data (basename e1.name).data (hchars j1)
  have ht2 := takeWhile_append_underscore (uuid j2).data (basename e2.name).data (hchars j2)
  refine strExt _ _ ?_
  rw [← ht1, ← ht2, hd2]

theorem writesFrom_paths_nodup (dir : String) (uuid : Nat → String)
    (hu : ∀ i, '_' ∉ (uuid i).data) (hui : ∀ i j, uuid i = uuid j → i = j) :
    ∀ (es : List ZipEntry) (i : Nat), ((writesFrom dir uuid es i).map Prod.fst).Nodup := by
  intro es
  induction es with
  | nil => intro i; simp [writesFrom]
  | cons e rest ih =>
    intro i
    rw [writesFrom, List.map_cons, List.nodup_cons]
    refine ⟨?_, ih (i + 1)⟩
    intro hmem
    obtain ⟨w, hw, hfst⟩ := List.mem_map.mp hmem
    obtain ⟨j, e2, hij, _, hpath⟩ := writesFrom_path_mem dir uuid rest (i + 1) w hw
    have heq : pathAt dir uuid e2 j = pathAt dir uuid e i := hpath ▸ hfst
    have : j = i := hui j i (pathAt_inj dir uuid hu e2 e j i heq)
    omega

theorem find_pair_unique (l : List (String × List Nat)) (p : String) (c : List Nat)
    (hnd : (l.map Prod.fst).Nodup) (hm : (p, c) ∈ l) :
    l.find? (fun q => q.1 == p) = some (p, c) := by
  induction l with
  | nil => cases hm
  | cons a rest ih =>
    rw [List.map_cons, List.nodup_cons] at hnd
    rcases List.mem_cons.mp hm with rfl | hmem
    · simp [List.find?_cons]
    · have hne : (a.1 == p) = false :=
        beq_eq_false_iff_ne.mpr (fun hEq => hnd.1 (hEq ▸ List.mem_map.mpr ⟨(p, c), hmem, rfl⟩))
      rw [List.find?_cons, hne]
      exact ih hnd.2 hmem

theorem fsRead_of_mem_nodup (ws : List (String × List Nat)) (p : String) (c : List Nat)
    (hnd : (ws.map Prod.fst).Nodup) (hm : (p, c) ∈ ws) : fsRead ws p = some c := by
  unfold fsRead
  have hndr : (ws.reverse.map Prod.fst).Nodup := by
    rw [List.map_reverse, List.nodup_reverse]
    exact hnd
  rw [find_pair_unique ws.reverse p c hndr (List.mem_reverse.mpr hm)]
  rfl

/-- C8: for a container with N allow-listed media parts, a successful
analysis (the archive opens, every disk write succeeds, uuids are fresh)
returns exactly N ExtractedImage records, and for each record a file exists
on disk at its `filePath` whose byte content — hence byte-length — equals
that of the corresponding source media part. -/
theorem analyzeTemplate_media_roundtrip (parse : List Nat → Option XmlRoot) (z : Zip)
    (tp dir : String) (uuid : Nat → String) (wOk : String → Bool)
    (hnd : (z.files.map (fun e => e.name)).Nodup)
    (hdir : ∀ e ∈ z.files, isAllowedMedia e.name = true → e.dir = false)
    (hw : ∀ p, wOk p = true)
    (hui : ∀ i j, uuid i = uuid j → i = j)
    (hu : ∀ i, '_' ∉ (uuid i).data) :
    (analyzeTemplate parse true (some z) tp dir uuid wOk).1.extractedImages.length =
      (mediaEntries z).length ∧
    List.Forall₂ (fun (e : ZipEntry) (img : ExtractedImage) =>
        ∃ bs, fsRead (analyzeTemplate parse true (some z) tp dir uuid wOk).2 img.filePath =
            some bs ∧ bs.length = e.content.length)
      (mediaEntries z)
      (analyzeTemplate parse true (some z) tp dir uuid wOk).1.extractedImages := by
  have hmf : ∀ e ∈ mediaEntries z, z.file e.name = some e := by
    intro e he
    have heF := List.mem_filter.mp he
    exact zip_file_eq z e hnd heF.1 (hdir e heF.1 (by simpa using heF.2))
  have hgo := extractGo_success z tp dir uuid wOk hw (mediaEntries z) 0 hmf
  have hei : extractImages z tp dir uuid wOk =
      (imgsFrom tp dir uuid (mediaEntries z) 0, writesFrom dir uuid (mediaEntries z) 0) := by
    unfold extractImages
    rw [mediaFileNames_eq, hgo]
  have hred1 : (analyzeTemplate parse true (some z) tp dir uuid wOk).1.extractedImages =
      (extractImages z tp dir uuid wOk).1 := rfl
  have hred2 : (analyzeTemplate parse true (some z) tp dir uuid wOk).2 =
      (extractImages z tp dir uuid wOk).2 := rfl
  rw [hred1, hred2, hei]
  constructor
  · exact imgsFrom_length tp dir uuid (mediaEntries z) 0
  · have hndp := writesFrom_paths_nodup dir uuid hu hui (mediaEntries z) 0
    exact (imgsFrom_writes_mem tp dir uuid (mediaEntries z) 0).imp
      (fun _ _ hpair => ⟨_, fsRead_of_mem_nodup _ _ _ hndp hpair, rfl⟩)

/-- An injective, underscore-free uuid supply for instantiating theorems. -/
def uuidW (i : Nat) : String := ⟨List.replicate i 'u'⟩

theorem analyzeTemplate_media_roundtrip_witness :
    (analyzeTemplate (fun _ => none) true
        (some ⟨[⟨"ppt/media/a.png", false, [1, 2]⟩, ⟨"ppt/media/b.jpg", false, [3]⟩]⟩)
        "tpl.pptx" "img" uuidW (fun _ => true)).1.extractedImages.length =
      (mediaEntries ⟨[⟨"ppt/media/a.png", false, [1, 2]⟩, ⟨"ppt/media/b.jpg", false, [3]⟩]⟩).length :=
  (analyzeTemplate_media_roundtrip (fun _ => none)
    ⟨[⟨"ppt/media/a.png", false, [1, 2]⟩, ⟨"ppt/media/b.jpg", false, [3]⟩]⟩
    "tpl.pptx" "img" uuidW (fun _ => true) (by decide) (by decide) (fun _ => rfl)
    (fun i j h => by
      have h2 : (uuidW i).data.length = (uuidW j).data.length := by rw [h]
      simpa [uuidW] using h2)
    (fun i => by simp [uuidW, List.mem_replicate])).1

theorem extractImages_all_or_nothing_witness :
    (extractImages ⟨[⟨"ppt/media/a.png", false, [1, 2]⟩, ⟨"ppt/media/b.jpg", false, [3]⟩]⟩
        "tpl.pptx" "img" (fun i => if i = 0 then "u0" else "u1") (fun _ => true)).1 = [] ∨
    (extractImages ⟨[⟨"ppt/media/a.png", false, [1, 2]⟩, ⟨"ppt/media/b.jpg", false, [3]⟩]⟩
        "tpl.pptx" "img" (fun i => if i = 0 then "u0" else "u1") (fun _ => true)).1.length =
      (mediaEntries ⟨[⟨"ppt/media/a.png", false, [1, 2]⟩, ⟨"ppt/media/b.jpg", false, [3]⟩]⟩).length :=
  extractImages_all_or_nothing _ "tpl.pptx" "img" _ _ (by decide) (by decide)

end AutoPPT
